import Mathlib

/-
Verification of the permit-generation core (src/src/handlers/generate-erc20-permit.ts)
against its natural-language specification.

The single exported function, generateErc20PermitSignature, is embedded shallowly:
every external collaborator the TypeScript code awaits or calls
(the GitHub user lookup, the wallet lookup, the fastest-provider selection,
the key decryption and parsing, the ethers Wallet constructor, the token
decimals read, the permit2 SDK getPermitData, and signTypedData) is a field of
an explicit environment record, and the pipeline is a pure function from the
environment and the call inputs to a trace of collaborator effects paired with
either an error or the produced PermitReward.  JavaScript truthiness tests on
strings and nullable values are modelled exactly (empty string and none are
falsy).  keccak256 composed with BigInt conversion is modelled as an
uninterpreted pure function on byte lists whose values are below 2^256, and
the numeric amount argument is represented by its decimal string image (the
code immediately calls amount.toString()).
-/

/-- UTF-8 encoding of one character, as the list of its byte values
(mirrors the byte sequence produced by toUtf8Bytes in ethers). -/
def utf8EncodeChar (c : Char) : List Nat :=
  let n := c.toNat
  if n < 0x80 then [n]
  else if n < 0x800 then [0xC0 ||| (n >>> 6), 0x80 ||| (n &&& 0x3F)]
  else if n < 0x10000 then [0xE0 ||| (n >>> 12), 0x80 ||| ((n >>> 6) &&& 0x3F), 0x80 ||| (n &&& 0x3F)]
  else [0xF0 ||| (n >>> 18), 0x80 ||| ((n >>> 12) &&& 0x3F), 0x80 ||| ((n >>> 6) &&& 0x3F), 0x80 ||| (n &&& 0x3F)]

/-- UTF-8 bytes of a string, modelling toUtf8Bytes from ethers. -/
def utf8Bytes (s : String) : List Nat := s.data.flatMap utf8EncodeChar

/-- MaxInt256 from ethers: the largest signed 256-bit integer, 2^255 - 1. -/
def maxInt256 : Int := 2 ^ 255 - 1

/-- PERMIT2_ADDRESS constant from the permit2 SDK: the singleton Permit2 deployment. -/
def permit2Address : String := "0x000000000022D473030F116dDEE9F6B43aC78BA3"

/-- One decimal digit value, or none for a non-digit character. -/
def decDigit (c : Char) : Option Nat :=
  if '0' ≤ c ∧ c ≤ '9' then some (c.toNat - '0'.toNat) else none

/-- Value of a digit string read in base 10; none when a non-digit occurs.
The empty list evaluates to 0 (callers guard against an entirely empty numeral). -/
def digitsVal (l : List Char) : Option Nat :=
  l.foldl
    (fun acc c =>
      match acc, decDigit c with
      | some a, some d => some (a * 10 + d)
      | _, _ => none)
    (some 0)

/-- Split a character list at every dot, keeping empty segments. -/
def splitOnDot : List Char → List (List Char)
  | [] => [[]]
  | c :: rest =>
    if c = '.' then [] :: splitOnDot rest
    else
      match splitOnDot rest with
      | [] => [[c]]
      | h :: t => (c :: h) :: t

/-- Model of parseUnits from ethers v6 on a decimal string: an optional minus
sign, a whole part and an optional fractional part separated by one dot; the
result is the value scaled by 10^decimals.  none models the exceptions thrown
for a malformed numeral or for more fractional digits than the token has
decimals. -/
def parseUnits (s : String) (decimals : Nat) : Option Int :=
  let neg : Bool := match s.data with | c :: _ => c == '-' | [] => false
  let body := if neg then s.data.tail else s.data
  match splitOnDot body with
  | [w] =>
    if w.isEmpty then none
    else
      (digitsVal w).map fun n =>
        let v : Int := (n : Int) * 10 ^ decimals
        if neg then -v else v
  | [w, f] =>
    if w.isEmpty ∧ f.isEmpty then none
    else if decimals < f.length then none
    else
      match digitsVal w, digitsVal f with
      | some wn, some fn =>
        let v : Int := (wn : Int) * 10 ^ decimals + (fn : Int) * 10 ^ (decimals - f.length)
        some (if neg then -v else v)
      | _, _ => none
  | _ => none

/-- Network connection handle returned by the provider-selection collaborator. -/
structure Provider where
  id : Nat
deriving DecidableEq

/-- Ethers Wallet object: the embedding only needs its address. -/
structure EthersWallet where
  address : String
deriving DecidableEq

/-- Token permissions part of the permit2 PermitTransferFrom struct. -/
structure TokenPermissions where
  token : String
  amount : Int
deriving DecidableEq

/-- The PermitTransferFrom struct built at lines 110-118 of the source. -/
structure PermitTransferFrom where
  permitted : TokenPermissions
  spender : String
  nonce : Nat
  deadline : Int
deriving DecidableEq

/-- Typed-data domain as returned by getPermitData of the permit2 SDK
(all fields optional, as in the TypedDataDomain type of ethers). -/
structure TypedDataDomain where
  name : Option String
  version : Option String
  chainId : Option Int
  verifyingContract : Option String
  salt : Option String
deriving DecidableEq

/-- The domain record actually handed to signTypedData (lines 124-130):
chainId and salt converted to strings by the handler. -/
structure SignerDomain where
  name : Option String
  version : Option String
  chainId : Option String
  verifyingContract : Option String
  salt : Option String
deriving DecidableEq

/-- Result of SignatureTransfer.getPermitData: domain, types schema and values.
The types schema is opaque to the handler, kept as a string token; the values
returned by the SDK are the permit struct itself. -/
structure PermitData where
  domain : TypedDataDomain
  types : String
  values : PermitTransferFrom
deriving DecidableEq

/-- Token type enumeration from src/src/types. -/
inductive TokenType where
  | erc20
  | erc721
deriving DecidableEq

/-- The PermitReward record assembled at lines 140-150. -/
structure PermitReward where
  tokenType : TokenType
  tokenAddress : String
  beneficiary : String
  nonce : String
  deadline : String
  amount : String
  owner : String
  signature : String
  networkId : Int
deriving DecidableEq

/-- The errors thrown by generateErc20PermitSignature, one constructor per
throw site. -/
inductive PermitError where
  | githubUserNotFound (username : String)
  | issueIdMissing
  | userNotFound
  | walletNotFound
  | providerNotDefined
  | decryptFailed
  | walletInstantiationFailed
  | tokenDecimalsFailed (token : String)
  | invalidAmount
  | signFailed
deriving DecidableEq

/-- Observable collaborator calls, in the order the handler makes them.
The sign effect records the domain object handed to signTypedData. -/
inductive Effect where
  | octokitGetUser (username : String)
  | supabaseGetWallet (userId : Nat)
  | getProvider (networkId : Int)
  | decryptKey
  | fetchDecimals (token : String)
  | sign (domain : SignerDomain)
deriving DecidableEq

/-- The Payload call shape of the handler (the logger field carries no data
relevant to the result and is omitted). -/
structure Payload where
  evmNetworkId : Int
  evmPrivateEncrypted : String
  walletAddress : String
  issueNodeId : String
  userId : Nat
deriving DecidableEq

/-- The webhook payload inside the Context call shape: it may carry an issue,
a pull request, or neither. -/
inductive WebhookPayload where
  | issue (nodeId : String)
  | pullRequest (nodeId : String)
  | other
deriving DecidableEq

/-- The Context call shape: config fields plus the webhook payload; the
octokit and supabase adapters live in the environment. -/
structure GithubContext where
  evmNetworkId : Int
  evmPrivateEncrypted : String
  payload : WebhookPayload
deriving DecidableEq

/-- The dual entry shape of generateErc20PermitSignature, discriminated in the
source by the presence of the issueNodeId field. -/
inductive CallInput where
  | payload (p : Payload)
  | context (c : GithubContext)
deriving DecidableEq

/-- Environment of external collaborators.  keccak256 models the composition
BigInt(keccak256(bytes)) as an uninterpreted pure function producing a 256-bit
unsigned integer; decrypt, parsePrivateKey, mkWallet, getDecimals and
signTypedData return none where the TypeScript collaborator throws or yields a
nullish value. -/
structure Env where
  keccak256 : List Nat → Nat
  keccak256_lt : ∀ bs, keccak256 bs < 2 ^ 256
  getByUsername : String → Option Nat
  getWalletByUserId : Nat → Option String
  getFastestProvider : Int → Option Provider
  x25519PrivateKey : String
  decrypt : String → String → Option String
  parsePrivateKey : String → Option String
  mkWallet : String → Provider → Option EthersWallet
  getDecimals : String → Provider → Option Nat
  getPermitData : PermitTransferFrom → String → Int → PermitData
  signTypedData : EthersWallet → SignerDomain → String → PermitTransferFrom → Option String

/-- The local variables the handler normalizes both call shapes into
(lines 25-60 of the source). -/
structure ResolvedInputs where
  evmNetworkId : Int
  evmPrivateEncrypted : String
  walletAddress : Option String
  issueNodeId : String
  userId : Nat
  username : String
deriving DecidableEq

/-- Lines 33-60: the dual-shape normalization.  The payload branch copies
fields; the context branch looks the user up by name via octokit, fetches the
wallet from supabase, and extracts the issue or pull-request node id. -/
def resolveInputs (env : Env) (input : CallInput) (username : String) :
    List Effect × Except PermitError ResolvedInputs :=
  match input with
  | .payload p =>
    ([], .ok { evmNetworkId := p.evmNetworkId, evmPrivateEncrypted := p.evmPrivateEncrypted,
               walletAddress := some p.walletAddress, issueNodeId := p.issueNodeId,
               userId := p.userId, username := username })
  | .context c =>
    match env.getByUsername username with
    | none => ([.octokitGetUser username], .error (.githubUserNotFound username))
    | some uid =>
      let w := env.getWalletByUserId uid
      match c.payload with
      | .issue nid =>
        ([.octokitGetUser username, .supabaseGetWallet uid],
         .ok { evmNetworkId := c.evmNetworkId, evmPrivateEncrypted := c.evmPrivateEncrypted,
               walletAddress := w, issueNodeId := nid, userId := uid, username := username })
      | .pullRequest nid =>
        ([.octokitGetUser username, .supabaseGetWallet uid],
         .ok { evmNetworkId := c.evmNetworkId, evmPrivateEncrypted := c.evmPrivateEncrypted,
               walletAddress := w, issueNodeId := nid, userId := uid, username := username })
      | .other =>
        ([.octokitGetUser username, .supabaseGetWallet uid], .error .issueIdMissing)

/-- Lines 77-87: decrypt the key blob with the process-wide secret, parse the
plaintext, extract the privateKey field, and reject a falsy (missing or empty)
key; none models any throw inside the try block. -/
def extractPrivateKey (env : Env) (encrypted : String) : Option String :=
  match env.decrypt encrypted env.x25519PrivateKey with
  | none => none
  | some plain =>
    match env.parsePrivateKey plain with
    | none => none
    | some k => if k = "" then none else some k

/-- Line 116: the nonce expression BigInt(keccak256(toUtf8Bytes(userId-issueNodeId))). -/
def derivedNonce (env : Env) (userId : Nat) (issueNodeId : String) : Nat :=
  env.keccak256 (utf8Bytes (toString userId ++ "-" ++ issueNodeId))

/-- Lines 110-118: the PermitTransferFrom struct with the scaled amount, the
wallet as spender, the keccak-derived nonce and the MaxInt256 deadline. -/
def buildPermitTransferFrom (env : Env) (r : ResolvedInputs) (w tokenAddress : String)
    (amountRaw : Int) : PermitTransferFrom :=
  { permitted := { token := tokenAddress, amount := amountRaw }
    spender := w
    nonce := derivedNonce env r.userId r.issueNodeId
    deadline := maxInt256 }

/-- Lines 124-130: the domain record passed to signTypedData.  chainId goes
through a JavaScript truthiness test (a chain id of 0 becomes undefined, any
other present value is stringified); salt is stringified through optional
chaining; the other fields pass through unchanged. -/
def toSignerDomain (d : TypedDataDomain) : SignerDomain :=
  { name := d.name
    version := d.version
    chainId :=
      match d.chainId with
      | none => none
      | some c => if c = 0 then none else some (toString c)
    verifyingContract := d.verifyingContract
    salt := d.salt }

/-- Everything the handler has in scope once line 120 is reached. -/
structure Prep where
  spender : String
  adminWallet : EthersWallet
  tokenDecimals : Nat
  permit : PermitTransferFrom
  sdk : PermitData
deriving DecidableEq

/-- Lines 62-120 after normalization: the username and wallet truthiness
checks, provider selection, key decryption, wallet instantiation, the decimals
read, amount scaling and the SDK getPermitData call, with the trace of
collaborator effects made along the way. -/
def runPrep (env : Env) (r : ResolvedInputs) (amountStr tokenAddress : String) :
    List Effect × Except PermitError Prep :=
  if r.username = "" then ([], .error .userNotFound)
  else
    match r.walletAddress with
    | none => ([], .error .walletNotFound)
    | some w =>
      if w = "" then ([], .error .walletNotFound)
      else
        match env.getFastestProvider r.evmNetworkId with
        | none => ([.getProvider r.evmNetworkId], .error .providerNotDefined)
        | some provider =>
          match extractPrivateKey env r.evmPrivateEncrypted with
          | none => ([.getProvider r.evmNetworkId, .decryptKey], .error .decryptFailed)
          | some pk =>
            match env.mkWallet pk provider with
            | none =>
              ([.getProvider r.evmNetworkId, .decryptKey], .error .walletInstantiationFailed)
            | some adminWallet =>
              match env.getDecimals tokenAddress provider with
              | none =>
                ([.getProvider r.evmNetworkId, .decryptKey, .fetchDecimals tokenAddress],
                 .error (.tokenDecimalsFailed tokenAddress))
              | some tokenDecimals =>
                match parseUnits amountStr tokenDecimals with
                | none =>
                  ([.getProvider r.evmNetworkId, .decryptKey, .fetchDecimals tokenAddress],
                   .error .invalidAmount)
                | some amountRaw =>
                  let permit := buildPermitTransferFrom env r w tokenAddress amountRaw
                  ([.getProvider r.evmNetworkId, .decryptKey, .fetchDecimals tokenAddress],
                   .ok { spender := w, adminWallet := adminWallet,
                         tokenDecimals := tokenDecimals, permit := permit,
                         sdk := env.getPermitData permit permit2Address r.evmNetworkId })

/-- Lines 140-150: assembly of the PermitReward from the permit struct, the
admin wallet address and the signature. -/
def assemble (prep : Prep) (signature : String) (networkId : Int) : PermitReward :=
  { tokenType := .erc20
    tokenAddress := prep.permit.permitted.token
    beneficiary := prep.permit.spender
    nonce := toString prep.permit.nonce
    deadline := toString prep.permit.deadline
    amount := toString prep.permit.permitted.amount
    owner := prep.adminWallet.address
    signature := signature
    networkId := networkId }

/-- Lines 62-154: the whole post-normalization pipeline, ending with the
signTypedData call on the converted domain and the PermitReward assembly. -/
def runPipeline (env : Env) (r : ResolvedInputs) (amountStr tokenAddress : String) :
    List Effect × Except PermitError PermitReward :=
  match runPrep env r amountStr tokenAddress with
  | (tr, .error e) => (tr, .error e)
  | (tr, .ok prep) =>
    match env.signTypedData prep.adminWallet (toSignerDomain prep.sdk.domain)
        prep.sdk.types prep.sdk.values with
    | none => (tr ++ [.sign (toSignerDomain prep.sdk.domain)], .error .signFailed)
    | some signature =>
      (tr ++ [.sign (toSignerDomain prep.sdk.domain)],
       .ok (assemble prep signature r.evmNetworkId))

/-- The full exported function: shape normalization followed by the pipeline. -/
def generateErc20PermitSignature (env : Env) (input : CallInput)
    (username amountStr tokenAddress : String) :
    List Effect × Except PermitError PermitReward :=
  match resolveInputs env input username with
  | (tr, .error e) => (tr, .error e)
  | (tr, .ok r) =>
    match runPipeline env r amountStr tokenAddress with
    | (tr2, res) => (tr ++ tr2, res)

instance {ε α : Type} [DecidableEq ε] [DecidableEq α] : DecidableEq (Except ε α) := fun a b =>
  match a, b with
  | .ok x, .ok y =>
    if h : x = y then isTrue (by rw [h]) else isFalse (by intro hc; cases hc; exact h rfl)
  | .error e, .error f =>
    if h : e = f then isTrue (by rw [h]) else isFalse (by intro hc; cases hc; exact h rfl)
  | .ok _, .error _ => isFalse (by intro hc; cases hc)
  | .error _, .ok _ => isFalse (by intro hc; cases hc)

/-- Success shape of runPrep: a run that returns a Prep record has passed every
check, and each component of the record is the value the corresponding
collaborator produced; the trace is exactly provider selection, decryption and
the decimals read. -/
theorem runPrep_ok_shape (env : Env) (r : ResolvedInputs) (a t : String)
    (tr : List Effect) (prep : Prep) (h : runPrep env r a t = (tr, .ok prep)) :
    ∃ w provider pk amountRaw,
      r.username ≠ "" ∧ r.walletAddress = some w ∧ w ≠ "" ∧
      env.getFastestProvider r.evmNetworkId = some provider ∧
      extractPrivateKey env r.evmPrivateEncrypted = some pk ∧
      env.mkWallet pk provider = some prep.adminWallet ∧
      env.getDecimals t provider = some prep.tokenDecimals ∧
      parseUnits a prep.tokenDecimals = some amountRaw ∧
      prep.spender = w ∧
      prep.permit = buildPermitTransferFrom env r w t amountRaw ∧
      prep.sdk = env.getPermitData prep.permit permit2Address r.evmNetworkId ∧
      tr = [.getProvider r.evmNetworkId, .decryptKey, .fetchDecimals t] := by
  unfold runPrep at h
  by_cases hU : r.username = ""
  · rw [if_pos hU] at h; simp at h
  · rw [if_neg hU] at h
    split at h
    · simp at h
    · rename_i w hW
      by_cases hw0 : w = ""
      · rw [if_pos hw0] at h; simp at h
      · rw [if_neg hw0] at h
        split at h
        · simp at h
        · rename_i provider hP
          split at h
          · simp at h
          · rename_i pk hK
            split at h
            · simp at h
            · rename_i adminWallet hM
              split at h
              · simp at h
              · rename_i tokenDecimals hD
                split at h
                · simp at h
                · rename_i amountRaw hA
                  injection h with htr hres
                  injection hres with hprep
                  subst hprep
                  exact ⟨w, provider, pk, amountRaw, hU, hW, hw0, hP, hK,
                    hM, hD, hA, rfl, rfl, rfl, htr.symm⟩

/-- Success shape of the pipeline: an ok run factors into an ok preparation,
a successful signTypedData call on the converted domain, a trace ending in
that sign effect, and the assembled reward. -/
theorem runPipeline_ok_shape (env : Env) (r : ResolvedInputs) (a t : String)
    (tr : List Effect) (p : PermitReward)
    (h : runPipeline env r a t = (tr, .ok p)) :
    ∃ tr0 prep sig,
      runPrep env r a t = (tr0, .ok prep) ∧
      env.signTypedData prep.adminWallet (toSignerDomain prep.sdk.domain)
        prep.sdk.types prep.sdk.values = some sig ∧
      tr = tr0 ++ [.sign (toSignerDomain prep.sdk.domain)] ∧
      p = assemble prep sig r.evmNetworkId := by
  unfold runPipeline at h
  split at h
  · simp at h
  · rename_i tr0 prep hPrep
    split at h
    · simp at h
    · rename_i sig hSig
      injection h with htr hres
      injection hres with hp
      exact ⟨tr0, prep, sig, hPrep, hSig, htr.symm, hp.symm⟩

/-- The preparation stage never emits a sign effect: its traces consist only
of provider, decryption and decimals effects. -/
theorem runPrep_no_sign (env : Env) (r : ResolvedInputs) (a t : String)
    (d : SignerDomain) : Effect.sign d ∉ (runPrep env r a t).1 := by
  unfold runPrep
  repeat' split
  all_goals simp

/-- A concrete byte-list hash standing in for keccak256 in executable tests:
base-256 folding reduced modulo 2^256. -/
def testKeccak (l : List Nat) : Nat := (l.foldl (fun a b => a * 256 + b) 0) % 2 ^ 256

/-- The test hash always fits in 256 bits. -/
theorem testKeccak_lt (l : List Nat) : testKeccak l < 2 ^ 256 :=
  Nat.mod_lt _ (by positivity)

/-- A fixed provider handle for concrete runs. -/
def testProvider : Provider := { id := 1 }

/-- A fully successful concrete environment: every collaborator answers, and
getPermitData mimics the permit2 SDK domain (name Permit2, the given chain id,
the Permit2 address as verifying contract). -/
def testEnv : Env :=
  { keccak256 := testKeccak
    keccak256_lt := testKeccak_lt
    getByUsername := fun _ => some 7
    getWalletByUserId := fun _ => some "0xBEEF"
    getFastestProvider := fun _ => some testProvider
    x25519PrivateKey := "secret"
    decrypt := fun cipher secret => if secret = "secret" then some ("plain:" ++ cipher) else none
    parsePrivateKey := fun plain => some plain
    mkWallet := fun _ _ => some { address := "0xOWNER" }
    getDecimals := fun _ _ => some 6
    getPermitData := fun permit addr chainId =>
      { domain := { name := some "Permit2", version := none, chainId := some chainId,
                    verifyingContract := some addr, salt := none }
        types := "PermitTransferFrom"
        values := permit }
    signTypedData := fun _ _ _ _ => some "0xSIG" }

/-- Concrete normalized inputs for test runs. -/
def testResolved : ResolvedInputs :=
  { evmNetworkId := 100, evmPrivateEncrypted := "enc", walletAddress := some "0xBEEF",
    issueNodeId := "NODE", userId := 7, username := "alice" }

/-- The domain testEnv runs hand to the signer on network 100. -/
def testSignerDomain : SignerDomain :=
  { name := some "Permit2", version := none, chainId := some "100",
    verifyingContract := some permit2Address, salt := none }

/-- The effect trace of a fully successful test run on token 0xT. -/
def testTrace : List Effect :=
  [.getProvider 100, .decryptKey, .fetchDecimals "0xT", .sign testSignerDomain]

/-- The PermitReward a successful test run produces, parametrized by the raw
amount string and the signature. -/
def expectedPermit (amount signature : String) : PermitReward :=
  { tokenType := .erc20, tokenAddress := "0xT", beneficiary := "0xBEEF",
    nonce := toString (testKeccak (utf8Bytes "7-NODE")),
    deadline := toString maxInt256, amount := amount, owner := "0xOWNER",
    signature := signature, networkId := 100 }

set_option maxRecDepth 100000 in
example : runPipeline testEnv testResolved "1" "0xT" =
    (testTrace, .ok (expectedPermit "1000000" "0xSIG")) := by rfl

example : parseUnits "1.5" 6 = some 1500000 := by rfl

example : parseUnits "0" 6 = some 0 := by rfl

/-- Helper: the nonce of every produced PermitReward is the decimal string of
the environment hash of the UTF-8 bytes of userId-issueNodeId. -/
theorem nonce_formula (env : Env) (r : ResolvedInputs) (a t : String)
    (tr : List Effect) (p : PermitReward)
    (h : runPipeline env r a t = (tr, .ok p)) :
    p.nonce = toString (env.keccak256 (utf8Bytes (toString r.userId ++ "-" ++ r.issueNodeId))) := by
  obtain ⟨tr0, prep, sig, hPrep, hSig, htr, hp⟩ := runPipeline_ok_shape env r a t tr p h
  obtain ⟨w, provider, pk, raw, hu, hW, hw0, hP, hK, hM, hD, hA, hsp, hpermit, hsdk, htr0⟩ :=
    runPrep_ok_shape env r a t tr0 prep hPrep
  subst hp
  simp [assemble, hpermit, buildPermitTransferFrom, derivedNonce]

/-- C1: every call that returns a PermitReward sets its nonce to the decimal
string of the 256-bit unsigned integer obtained by hashing the UTF-8 bytes of
the string userId-issueNodeId with the 256-bit hash of the environment
(modelling BigInt(keccak256(toUtf8Bytes(...))) at line 116); the hash value is
below 2^256, and the nonce depends on nothing besides the hash function, the
subject user id and the event id: any other successful run agreeing on those
three produces the identical nonce. -/
theorem nonce_eq_keccak_userid_event (env : Env) (r : ResolvedInputs) (a t : String)
    (tr : List Effect) (p : PermitReward)
    (h : runPipeline env r a t = (tr, .ok p)) :
    p.nonce = toString (env.keccak256 (utf8Bytes (toString r.userId ++ "-" ++ r.issueNodeId))) ∧
    env.keccak256 (utf8Bytes (toString r.userId ++ "-" ++ r.issueNodeId)) < 2 ^ 256 ∧
    ∀ (env2 : Env) (r2 : ResolvedInputs) (a2 t2 : String) (tr2 : List Effect) (p2 : PermitReward),
      env2.keccak256 = env.keccak256 → r2.userId = r.userId → r2.issueNodeId = r.issueNodeId →
      runPipeline env2 r2 a2 t2 = (tr2, .ok p2) → p2.nonce = p.nonce := by
  refine ⟨nonce_formula env r a t tr p h, env.keccak256_lt _, ?_⟩
  intro env2 r2 a2 t2 tr2 p2 hk hu hi h2
  rw [nonce_formula env2 r2 a2 t2 tr2 p2 h2, nonce_formula env r a t tr p h, hk, hu, hi]

set_option maxRecDepth 100000 in
/-- Witness for C1: a fully concrete successful run. -/
theorem nonce_eq_keccak_userid_event_witness :
    (expectedPermit "1000000" "0xSIG").nonce =
      toString (testEnv.keccak256
        (utf8Bytes (toString testResolved.userId ++ "-" ++ testResolved.issueNodeId))) ∧
    testEnv.keccak256
      (utf8Bytes (toString testResolved.userId ++ "-" ++ testResolved.issueNodeId)) < 2 ^ 256 := by
  have h := nonce_eq_keccak_userid_event testEnv testResolved "1" "0xT" testTrace
    (expectedPermit "1000000" "0xSIG") (by rfl)
  exact ⟨h.1, h.2.1⟩

/-- C6: every call that returns a PermitReward sets its deadline to the
decimal string of MaxInt256 = 2^255 - 1, the largest signed 256-bit integer;
no successful run produces any other deadline. -/
theorem deadline_eq_maxint256 (env : Env) (r : ResolvedInputs) (a t : String)
    (tr : List Effect) (p : PermitReward)
    (h : runPipeline env r a t = (tr, .ok p)) :
    p.deadline = toString maxInt256 ∧ maxInt256 = 2 ^ 255 - 1 := by
  obtain ⟨tr0, prep, sig, hPrep, hSig, htr, hp⟩ := runPipeline_ok_shape env r a t tr p h
  obtain ⟨w, provider, pk, raw, hu, hW, hw0, hP, hK, hM, hD, hA, hsp, hpermit, hsdk, htr0⟩ :=
    runPrep_ok_shape env r a t tr0 prep hPrep
  subst hp
  exact ⟨by simp [assemble, hpermit, buildPermitTransferFrom], rfl⟩

set_option maxRecDepth 100000 in
/-- Witness for C6: the concrete successful run yields the MaxInt256 deadline. -/
theorem deadline_eq_maxint256_witness :
    (expectedPermit "1000000" "0xSIG").deadline = toString maxInt256 ∧
    maxInt256 = 2 ^ 255 - 1 :=
  deadline_eq_maxint256 testEnv testResolved "1" "0xT" testTrace
    (expectedPermit "1000000" "0xSIG") (by rfl)

/-- C7: every call that returns a PermitReward sets its amount to the decimal
string of the raw amount computed by parseUnits from the human-unit decimal
string and the decimals fetched for the token; and concretely parseUnits
scales 1.5 at 6 decimals to 1500000 and 0 to 0. -/
theorem amount_scaled_by_decimals (env : Env) (r : ResolvedInputs) (a t : String)
    (tr : List Effect) (p : PermitReward)
    (h : runPipeline env r a t = (tr, .ok p)) :
    (∃ provider decimals raw,
       env.getFastestProvider r.evmNetworkId = some provider ∧
       env.getDecimals t provider = some decimals ∧
       parseUnits a decimals = some raw ∧
       p.amount = toString raw) ∧
    parseUnits "1.5" 6 = some 1500000 ∧
    parseUnits "0" 6 = some 0 := by
  obtain ⟨tr0, prep, sig, hPrep, hSig, htr, hp⟩ := runPipeline_ok_shape env r a t tr p h
  obtain ⟨w, provider, pk, raw, hu, hW, hw0, hP, hK, hM, hD, hA, hsp, hpermit, hsdk, htr0⟩ :=
    runPrep_ok_shape env r a t tr0 prep hPrep
  subst hp
  refine ⟨⟨provider, prep.tokenDecimals, raw, hP, hD, hA, ?_⟩, by rfl, by rfl⟩
  simp [assemble, hpermit, buildPermitTransferFrom]

set_option maxRecDepth 100000 in
/-- Witness for C7: a concrete run with amount 0 still succeeds and produces
raw amount 0. -/
theorem amount_scaled_by_decimals_witness :
    (∃ provider decimals raw,
       testEnv.getFastestProvider testResolved.evmNetworkId = some provider ∧
       testEnv.getDecimals "0xT" provider = some decimals ∧
       parseUnits "0" decimals = some raw ∧
       (expectedPermit "0" "0xSIG").amount = toString raw) ∧
    parseUnits "1.5" 6 = some 1500000 ∧
    parseUnits "0" 6 = some 0 :=
  amount_scaled_by_decimals testEnv testResolved "0" "0xT" testTrace
    (expectedPermit "0" "0xSIG") (by rfl)

/-- C9: every PermitReward returned by a successful call has tokenType ERC20,
tokenAddress equal to the token argument, networkId equal to the resolved
network id, and beneficiary equal to the resolved wallet address. -/
theorem permit_passthrough_fields (env : Env) (r : ResolvedInputs) (a t : String)
    (tr : List Effect) (p : PermitReward)
    (h : runPipeline env r a t = (tr, .ok p)) :
    p.tokenType = TokenType.erc20 ∧ p.tokenAddress = t ∧
    p.networkId = r.evmNetworkId ∧ r.walletAddress = some p.beneficiary := by
  obtain ⟨tr0, prep, sig, hPrep, hSig, htr, hp⟩ := runPipeline_ok_shape env r a t tr p h
  obtain ⟨w, provider, pk, raw, hu, hW, hw0, hP, hK, hM, hD, hA, hsp, hpermit, hsdk, htr0⟩ :=
    runPrep_ok_shape env r a t tr0 prep hPrep
  subst hp
  have hb : (assemble prep sig r.evmNetworkId).beneficiary = w := by
    simp [assemble, hpermit, buildPermitTransferFrom]
  refine ⟨rfl, ?_, rfl, ?_⟩
  · simp [assemble, hpermit, buildPermitTransferFrom]
  · rw [hb, hW]

set_option maxRecDepth 100000 in
/-- Witness for C9: the concrete successful run passes the fields through. -/
theorem permit_passthrough_fields_witness :
    (expectedPermit "1000000" "0xSIG").tokenType = TokenType.erc20 ∧
    (expectedPermit "1000000" "0xSIG").tokenAddress = "0xT" ∧
    (expectedPermit "1000000" "0xSIG").networkId = testResolved.evmNetworkId ∧
    testResolved.walletAddress = some (expectedPermit "1000000" "0xSIG").beneficiary :=
  permit_passthrough_fields testEnv testResolved "1" "0xT" testTrace
    (expectedPermit "1000000" "0xSIG") (by rfl)

/-- C3: two runs with identical resolved inputs and identical collaborators up
to the signing primitive (the second environment may sign differently, the
signer being the only possibly non-deterministic component) that both succeed
produce PermitRewards with pairwise identical nonce, tokenAddress,
beneficiary, amount and deadline fields. -/
theorem permit_fields_idempotent (env : Env)
    (f : EthersWallet → SignerDomain → String → PermitTransferFrom → Option String)
    (r : ResolvedInputs) (a t : String) (tr1 tr2 : List Effect) (p1 p2 : PermitReward)
    (h1 : runPipeline env r a t = (tr1, .ok p1))
    (h2 : runPipeline { env with signTypedData := f } r a t = (tr2, .ok p2)) :
    p1.nonce = p2.nonce ∧ p1.tokenAddress = p2.tokenAddress ∧
    p1.beneficiary = p2.beneficiary ∧ p1.amount = p2.amount ∧
    p1.deadline = p2.deadline := by
  obtain ⟨tr0, prep, sig, hPrep, hSig, htr, hp1⟩ := runPipeline_ok_shape env r a t tr1 p1 h1
  obtain ⟨tr0b, prepb, sigb, hPrepb, hSigb, htrb, hp2⟩ :=
    runPipeline_ok_shape { env with signTypedData := f } r a t tr2 p2 h2
  have hsame : runPrep { env with signTypedData := f } r a t = runPrep env r a t := rfl
  rw [hsame, hPrep] at hPrepb
  injection hPrepb with he1 he2
  injection he2 with he2
  subst he2
  subst hp1
  subst hp2
  exact ⟨rfl, rfl, rfl, rfl, rfl⟩

set_option maxRecDepth 100000 in
/-- Witness for C3: the same inputs run against testEnv and against testEnv
with a different signer produce permits agreeing on all five fields. -/
theorem permit_fields_idempotent_witness :
    (expectedPermit "1000000" "0xSIG").nonce = (expectedPermit "1000000" "0xSIG2").nonce ∧
    (expectedPermit "1000000" "0xSIG").tokenAddress = (expectedPermit "1000000" "0xSIG2").tokenAddress ∧
    (expectedPermit "1000000" "0xSIG").beneficiary = (expectedPermit "1000000" "0xSIG2").beneficiary ∧
    (expectedPermit "1000000" "0xSIG").amount = (expectedPermit "1000000" "0xSIG2").amount ∧
    (expectedPermit "1000000" "0xSIG").deadline = (expectedPermit "1000000" "0xSIG2").deadline :=
  permit_fields_idempotent testEnv (fun _ _ _ _ => some "0xSIG2") testResolved "1" "0xT"
    testTrace testTrace (expectedPermit "1000000" "0xSIG") (expectedPermit "1000000" "0xSIG2")
    (by rfl) (by rfl)

/-- C2 counterexample input: the resolved inputs of a call on network id 0. -/
def zeroNetResolved : ResolvedInputs :=
  { evmNetworkId := 0, evmPrivateEncrypted := "enc", walletAddress := some "0xBEEF",
    issueNodeId := "NODE", userId := 7, username := "alice" }

set_option maxRecDepth 100000 in
/-- Counterexample to C2 as stated: on a call whose built domain carries
chainId 0 (present, not absent), the domain handed to the signer carries
chainId undefined rather than the stringified value, because line 127 tests
JavaScript truthiness and 0 is falsy.  The trace of the run shows the sign
effect with chainId none while getPermitData returned chainId some 0. -/
theorem signer_domain_chainid_zero_cex :
    (runPipeline testEnv zeroNetResolved "1" "0xT").1 =
      [.getProvider 0, .decryptKey, .fetchDecimals "0xT",
       .sign { name := some "Permit2", version := none, chainId := none,
               verifyingContract := some permit2Address, salt := none }] ∧
    (testEnv.getPermitData
        (buildPermitTransferFrom testEnv zeroNetResolved "0xBEEF" "0xT" 1000000)
        permit2Address 0).domain.chainId = some 0 ∧
    (none : Option String) ≠ some (toString (0 : Int)) :=
  ⟨by rfl, by rfl, by decide⟩

/-- C2 as amended: every domain handed to the signing primitive during a run
is the conversion of a domain built by getPermitData, and the conversion keeps
name, version, verifyingContract and salt unchanged while chainId is
stringified exactly when present and nonzero and becomes undefined when
absent or zero. -/
theorem signer_domain_conversion :
    (∀ (env : Env) (r : ResolvedInputs) (a t : String) (d : SignerDomain),
       Effect.sign d ∈ (runPipeline env r a t).1 →
       ∃ prm, d = toSignerDomain (env.getPermitData prm permit2Address r.evmNetworkId).domain) ∧
    ∀ dom : TypedDataDomain,
      (toSignerDomain dom).name = dom.name ∧
      (toSignerDomain dom).version = dom.version ∧
      (toSignerDomain dom).verifyingContract = dom.verifyingContract ∧
      (toSignerDomain dom).salt = dom.salt ∧
      (toSignerDomain dom).chainId =
        dom.chainId.bind fun c => if c = 0 then none else some (toString c) := by
  constructor
  · intro env r a t d hmem
    rcases hq : runPrep env r a t with ⟨tr0, res⟩
    have hnos := runPrep_no_sign env r a t d
    rw [hq] at hnos
    unfold runPipeline at hmem
    rw [hq] at hmem
    cases res with
    | error e => exact absurd hmem hnos
    | ok prep =>
      dsimp only at hmem
      cases hs : env.signTypedData prep.adminWallet (toSignerDomain prep.sdk.domain)
          prep.sdk.types prep.sdk.values with
      | none =>
        rw [hs] at hmem
        simp only [List.mem_append, List.mem_singleton] at hmem
        rcases hmem with hmem | hmem
        · exact absurd hmem hnos
        · obtain ⟨w, provider, pk, raw, hu, hW, hw0, hP, hK, hM, hD, hA, hsp, hpermit, hsdk, htr0⟩ :=
            runPrep_ok_shape env r a t tr0 prep hq
          refine ⟨prep.permit, ?_⟩
          injection hmem with hmem
          rw [hmem, hsdk]
      | some sig =>
        rw [hs] at hmem
        simp only [List.mem_append, List.mem_singleton] at hmem
        rcases hmem with hmem | hmem
        · exact absurd hmem hnos
        · obtain ⟨w, provider, pk, raw, hu, hW, hw0, hP, hK, hM, hD, hA, hsp, hpermit, hsdk, htr0⟩ :=
            runPrep_ok_shape env r a t tr0 prep hq
          refine ⟨prep.permit, ?_⟩
          injection hmem with hmem
          rw [hmem, hsdk]
  · intro dom
    refine ⟨rfl, rfl, rfl, rfl, ?_⟩
    cases hc : dom.chainId with
    | none => simp [toSignerDomain, hc]
    | some c => by_cases h0 : c = 0 <;> simp [toSignerDomain, hc, h0]

set_option maxRecDepth 100000 in
/-- Witness for C2 as amended: in the concrete successful run the signer
received exactly the conversion of the SDK-built domain. -/
theorem signer_domain_conversion_witness :
    Effect.sign testSignerDomain ∈ (runPipeline testEnv testResolved "1" "0xT").1 ∧
    ∃ prm, testSignerDomain =
      toSignerDomain (testEnv.getPermitData prm permit2Address testResolved.evmNetworkId).domain := by
  have he : runPipeline testEnv testResolved "1" "0xT" =
      (testTrace, .ok (expectedPermit "1000000" "0xSIG")) := by rfl
  have hm : Effect.sign testSignerDomain ∈ (runPipeline testEnv testResolved "1" "0xT").1 := by
    rw [he]; simp [testTrace]
  exact ⟨hm, signer_domain_conversion.1 testEnv testResolved "1" "0xT" testSignerDomain hm⟩

/-- An environment whose decryption collaborator always fails (a corrupted
ciphertext or wrong secret). -/
def badDecryptEnv : Env := { testEnv with decrypt := fun _ _ => none }

/-- Counterexample to C4 as stated: a call with a corrupted ciphertext does
fail with the decryption error and produces no signature, but the failure
does NOT occur before any network call: the provider-resolution network call
(line 71) happens before decryption (line 79), so the trace already contains
the getProvider effect when the decryption error is raised. -/
theorem decrypt_fail_network_call_cex :
    runPipeline badDecryptEnv testResolved "1" "0xT" =
      ([.getProvider 100, .decryptKey], .error .decryptFailed) ∧
    Effect.getProvider 100 ∈ (runPipeline badDecryptEnv testResolved "1" "0xT").1 :=
  ⟨by rfl, by decide⟩

/-- C4 as amended: when the key material cannot be decrypted or yields no
usable private key, the call fails with the decryption error and no signature
is produced, and the failure occurs before the decimals fetch and before
signing — but after the provider-resolution network call, which the source
makes first. -/
theorem decrypt_fail_stops_pipeline (env : Env) (r : ResolvedInputs) (a t : String)
    (w : String) (provider : Provider)
    (hu : r.username ≠ "") (hw : r.walletAddress = some w) (hw0 : w ≠ "")
    (hp : env.getFastestProvider r.evmNetworkId = some provider)
    (hk : extractPrivateKey env r.evmPrivateEncrypted = none) :
    runPipeline env r a t = ([.getProvider r.evmNetworkId, .decryptKey], .error .decryptFailed) ∧
    Effect.fetchDecimals t ∉ (runPipeline env r a t).1 ∧
    ∀ d, Effect.sign d ∉ (runPipeline env r a t).1 := by
  have hq : runPrep env r a t =
      ([.getProvider r.evmNetworkId, .decryptKey], .error .decryptFailed) := by
    unfold runPrep
    simp [if_neg hu, hw, if_neg hw0, hp, hk]
  have hrun : runPipeline env r a t =
      ([.getProvider r.evmNetworkId, .decryptKey], .error .decryptFailed) := by
    unfold runPipeline
    rw [hq]
  refine ⟨hrun, ?_, ?_⟩
  · rw [hrun]; simp
  · intro d; rw [hrun]; simp

/-- Witness for C4 as amended: the concrete failing-decryption run. -/
theorem decrypt_fail_stops_pipeline_witness :
    (runPipeline badDecryptEnv testResolved "1" "0xT" =
      ([.getProvider 100, .decryptKey], .error .decryptFailed)) ∧
    Effect.fetchDecimals "0xT" ∉ (runPipeline badDecryptEnv testResolved "1" "0xT").1 ∧
    ∀ d, Effect.sign d ∉ (runPipeline badDecryptEnv testResolved "1" "0xT").1 :=
  decrypt_fail_stops_pipeline badDecryptEnv testResolved "1" "0xT" "0xBEEF" testProvider
    (by decide) rfl (by decide) rfl rfl

/-- C5 counterexample input: a payload-shape call with an empty wallet. -/
def noWalletPayload : Payload :=
  { evmNetworkId := 100, evmPrivateEncrypted := "enc", walletAddress := "",
    issueNodeId := "NODE", userId := 7 }

/-- Counterexample to C5 as stated: a call whose beneficiary wallet address is
empty but whose username argument is also empty fails with the user-not-found
error of line 63, not with the wallet-not-found error, because the username
truthiness check precedes the wallet check. -/
theorem missing_wallet_empty_username_cex :
    generateErc20PermitSignature testEnv (.payload noWalletPayload) "" "1" "0xT" =
      ([], .error .userNotFound) ∧
    noWalletPayload.walletAddress = "" ∧
    PermitError.userNotFound ≠ PermitError.walletNotFound :=
  ⟨by rfl, rfl, by decide⟩

/-- C5 as amended: when the resolved username is non-empty and the beneficiary
wallet address is absent or empty, the call fails immediately with the
wallet-not-found error and with an empty effect trace, so the failure occurs
before any decryption and before the provider-resolution, decimals-fetch and
signing calls. -/
theorem missing_wallet_fails_fast (env : Env) (r : ResolvedInputs) (a t : String)
    (hu : r.username ≠ "")
    (hw : r.walletAddress = none ∨ r.walletAddress = some "") :
    runPipeline env r a t = ([], .error .walletNotFound) ∧
    Effect.decryptKey ∉ (runPipeline env r a t).1 ∧
    Effect.getProvider r.evmNetworkId ∉ (runPipeline env r a t).1 ∧
    Effect.fetchDecimals t ∉ (runPipeline env r a t).1 ∧
    ∀ d, Effect.sign d ∉ (runPipeline env r a t).1 := by
  have hq : runPrep env r a t = ([], .error .walletNotFound) := by
    unfold runPrep
    rcases hw with hw | hw <;> simp [if_neg hu, hw]
  have hrun : runPipeline env r a t = ([], .error .walletNotFound) := by
    unfold runPipeline
    rw [hq]
  refine ⟨hrun, ?_, ?_, ?_, ?_⟩ <;> rw [hrun] <;> simp

/-- Witness for C5 as amended: a concrete run with an empty wallet address. -/
theorem missing_wallet_fails_fast_witness :
    (runPipeline testEnv { testResolved with walletAddress := some "" } "1" "0xT" =
      ([], .error .walletNotFound)) ∧
    Effect.decryptKey ∉
      (runPipeline testEnv { testResolved with walletAddress := some "" } "1" "0xT").1 ∧
    Effect.getProvider 100 ∉
      (runPipeline testEnv { testResolved with walletAddress := some "" } "1" "0xT").1 ∧
    Effect.fetchDecimals "0xT" ∉
      (runPipeline testEnv { testResolved with walletAddress := some "" } "1" "0xT").1 ∧
    ∀ d, Effect.sign d ∉
      (runPipeline testEnv { testResolved with walletAddress := some "" } "1" "0xT").1 :=
  missing_wallet_fails_fast testEnv { testResolved with walletAddress := some "" } "1" "0xT"
    (by decide) (Or.inr rfl)

/-- An environment whose provider-selection collaborator finds no healthy
connection. -/
def noProviderEnv : Env := { testEnv with getFastestProvider := fun _ => none }

/-- C8: when the provider-selection collaborator is consulted and returns no
connection, the call fails with the provider error, the trace contains only
the provider-selection effect, and neither decryption nor the decimals fetch
nor signing is performed. -/
theorem provider_missing_fails_fast (env : Env) (r : ResolvedInputs) (a t : String)
    (w : String)
    (hu : r.username ≠ "") (hw : r.walletAddress = some w) (hw0 : w ≠ "")
    (hp : env.getFastestProvider r.evmNetworkId = none) :
    runPipeline env r a t = ([.getProvider r.evmNetworkId], .error .providerNotDefined) ∧
    Effect.decryptKey ∉ (runPipeline env r a t).1 ∧
    Effect.fetchDecimals t ∉ (runPipeline env r a t).1 ∧
    ∀ d, Effect.sign d ∉ (runPipeline env r a t).1 := by
  have hq : runPrep env r a t =
      ([.getProvider r.evmNetworkId], .error .providerNotDefined) := by
    unfold runPrep
    simp [if_neg hu, hw, if_neg hw0, hp]
  have hrun : runPipeline env r a t =
      ([.getProvider r.evmNetworkId], .error .providerNotDefined) := by
    unfold runPipeline
    rw [hq]
  refine ⟨hrun, ?_, ?_, ?_⟩ <;> rw [hrun] <;> simp

/-- Witness for C8: a concrete run against an environment with no provider. -/
theorem provider_missing_fails_fast_witness :
    (runPipeline noProviderEnv testResolved "1" "0xT" =
      ([.getProvider 100], .error .providerNotDefined)) ∧
    Effect.decryptKey ∉ (runPipeline noProviderEnv testResolved "1" "0xT").1 ∧
    Effect.fetchDecimals "0xT" ∉ (runPipeline noProviderEnv testResolved "1" "0xT").1 ∧
    ∀ d, Effect.sign d ∉ (runPipeline noProviderEnv testResolved "1" "0xT").1 :=
  provider_missing_fails_fast noProviderEnv testResolved "1" "0xT" "0xBEEF"
    (by decide) rfl (by decide) rfl

/-- C10: a payload-shape call with an empty username argument fails with the
user-not-found error of line 63 with an empty effect trace: no provider
resolution, no decryption, no decimals fetch and no signing has occurred. -/
theorem empty_username_payload_fails (env : Env) (p : Payload) (a t : String) :
    generateErc20PermitSignature env (.payload p) "" a t = ([], .error .userNotFound) := by
  rfl

/-- Witness for C10: a concrete payload-shape call with an empty username. -/
theorem empty_username_payload_fails_witness :
    generateErc20PermitSignature testEnv
      (.payload { evmNetworkId := 100, evmPrivateEncrypted := "enc",
                  walletAddress := "0xBEEF", issueNodeId := "NODE", userId := 7 })
      "" "1" "0xT" = ([], .error .userNotFound) :=
  empty_username_payload_fails testEnv
    { evmNetworkId := 100, evmPrivateEncrypted := "enc",
      walletAddress := "0xBEEF", issueNodeId := "NODE", userId := 7 } "1" "0xT"

/-- Every successful full call factors through input resolution and the
post-resolution pipeline, so the pipeline-level theorems above cover every
call of generateErc20PermitSignature that returns a PermitReward. -/
theorem generate_ok_factors (env : Env) (input : CallInput) (u a t : String)
    (tr : List Effect) (p : PermitReward)
    (h : generateErc20PermitSignature env input u a t = (tr, .ok p)) :
    ∃ tr1 r tr2,
      resolveInputs env input u = (tr1, .ok r) ∧
      runPipeline env r a t = (tr2, .ok p) ∧ tr = tr1 ++ tr2 := by
  unfold generateErc20PermitSignature at h
  rcases hq : resolveInputs env input u with ⟨tr1, res⟩
  rw [hq] at h
  cases res with
  | error e => simp at h
  | ok r =>
    dsimp only at h
    rcases hp : runPipeline env r a t with ⟨tr2, res2⟩
    rw [hp] at h
    cases res2 with
    | error e => simp at h
    | ok p2 =>
      dsimp only at h
      injection h with h1 h2
      injection h2 with h2
      exact ⟨tr1, r, tr2, rfl, by rw [← h2]; exact hp, h1.symm⟩
